import Mathlib

/-!
# Verification of the Web-Scraper client logic

Shallow embedding of the client-side logic of the Web-Scraper repository
(`src/components/Dashboard.tsx`, `src/components/ScrapeForm.tsx`):
the derived-view filter, selection handling, bulk deletion reconciliation,
CSV export, site-summary computation, the job-submission handler and the
progress-event handler.  Strings are Lean `String`s; the JavaScript string
operations used by the code (`trim`, `toLowerCase`, `includes`, template
literals, `||` on strings) are modelled explicitly below, restricted to the
ASCII case folding that `Char.toLower` provides.
-/

namespace WebScraper

/-- Model of the JavaScript whitespace test used by `String.prototype.trim`
(restricted to space, tab, line feed, carriage return). -/
def isWS (c : Char) : Bool :=
  c.toNat == 32 || c.toNat == 9 || c.toNat == 10 || c.toNat == 13

/-- Model of `String.prototype.trim`: drop leading and trailing whitespace. -/
def trimList (l : List Char) : List Char :=
  ((l.dropWhile isWS).reverse.dropWhile isWS).reverse

/-- Model of `s.trim()`. -/
def jsTrim (s : String) : String := ⟨trimList s.data⟩

/-- Model of `s.toLowerCase()` (ASCII case folding, per `Char.toLower`). -/
def jsToLower (s : String) : String := ⟨s.data.map Char.toLower⟩

/-- `beginsWith hay needle` is true when `needle` is an initial segment of `hay`. -/
def beginsWith : List Char → List Char → Bool
  | _, [] => true
  | [], _ :: _ => false
  | a :: as, b :: bs => a == b && beginsWith as bs

/-- `hasSub hay needle`: does `needle` occur contiguously inside `hay`? -/
def hasSub : List Char → List Char → Bool
  | [], needle => needle.isEmpty
  | a :: as, needle => beginsWith (a :: as) needle || hasSub as needle

/-- Model of `hay.includes(needle)`. -/
def jsIncludes (hay needle : String) : Bool := hasSub hay.data needle.data

/-- Model of the JavaScript expression `s || d` on strings: the empty string
is falsy and selects the default. -/
def jsOrDefault (s d : String) : String := if s = "" then d else s

/-- Model of `o || d` where `o` is an optional string field (`undefined` and
`""` are both falsy). -/
def jsOrOpt (o : Option String) (d : String) : String :=
  match o with
  | none => d
  | some t => if t = "" then d else t

/-- Model of `Array.prototype.join(sep)`. -/
def joinSep (sep : String) : List String → String
  | [] => ""
  | [x] => x
  | x :: y :: rest => x ++ sep ++ joinSep sep (y :: rest)

/-! ## Dashboard data model (`src/components/Dashboard.tsx`) -/

/-- The `ScrapedItem` interface of `Dashboard.tsx`.  The optional `_id` field
is never read by the client logic and is omitted.  `contentType` is an
optional field (`contentType?: string`). -/
structure ScrapedItem where
  title : String
  price : String
  availability : String
  category : String
  source : String
  timestamp : String
  contentType : Option String
deriving DecidableEq, Repr

/-- The component state of `Dashboard` that the verified operations touch.
The site summary (a JavaScript object keyed by hostname) is modelled as an
association list in insertion order.  The selection (`Set<number>` of
positions into `filteredData`) is modelled as a duplicate-free list in
insertion order.  Presentation-only state (`loading`) is omitted. -/
structure DashState where
  data : List ScrapedItem
  filteredData : List ScrapedItem
  error : String
  siteSummary : List (String × Nat)
  selectedItems : List Nat
  isDeleting : Bool
  contentTypeFilter : String
  searchQuery : String
deriving DecidableEq, Repr

/-- The pure core of `filterData`: content-type equality filter (skipped for
the `'all'` filter), then case-insensitive title search (skipped when the
trimmed query is empty), exactly as lines 38–53 of `Dashboard.tsx`. -/
def filterCore (contentTypeFilter searchQuery : String)
    (data : List ScrapedItem) : List ScrapedItem :=
  let f1 :=
    if contentTypeFilter ≠ "all" then
      data.filter (fun item => item.contentType == some contentTypeFilter)
    else data
  if jsTrim searchQuery ≠ "" then
    f1.filter (fun item =>
      jsIncludes (jsToLower item.title) (jsTrim (jsToLower searchQuery)))
  else f1

/-- `filterData` of `Dashboard.tsx`: recompute the derived view from the
canonical list and the active predicate, then clear the selection
(`setSelectedItems(new Set())`, line 54). -/
def filterData (s : DashState) : DashState :=
  { s with
    filteredData := filterCore s.contentTypeFilter s.searchQuery s.data
    selectedItems := [] }

/-- `calculateSiteSummary`'s per-item key: the hostname when the source URL
parses (`new URL(item.source).hostname`), otherwise the fallback
`item.source || 'Unknown Source'`.  URL parsing is an external browser
facility, passed in as `parseHost`. -/
def siteKey (parseHost : String → Option String) (item : ScrapedItem) : String :=
  match parseHost item.source with
  | some host => host
  | none => jsOrDefault item.source "Unknown Source"

/-- One step of `summary[domain] = (summary[domain] || 0) + 1` on the
association-list model of the summary object. -/
def bumpKey : List (String × Nat) → String → List (String × Nat)
  | [], k => [(k, 1)]
  | (k', n) :: rest, k =>
      if k' = k then (k', n + 1) :: rest else (k', n) :: bumpKey rest k

/-- `calculateSiteSummary` of `Dashboard.tsx` (lines 77–91). -/
def calculateSiteSummary (parseHost : String → Option String)
    (items : List ScrapedItem) : List (String × Nat) :=
  items.foldl (fun acc item => bumpKey acc (siteKey parseHost item)) []

/-- Events that make the `useEffect` at lines 34–36 of `Dashboard.tsx` rerun
`filterData`: a successful reload replacing the canonical list (which also
recomputes the site summary, per `fetchData`), a content-type filter change,
or a search-text change. -/
inductive ViewEvent where
  | reload (newData : List ScrapedItem)
  | setContentTypeFilter (t : String)
  | setSearchQuery (q : String)
deriving DecidableEq, Repr

/-- Apply a view-changing event: perform the state update and then the
`filterData` effect that React schedules on `[data, contentTypeFilter,
searchQuery]`. -/
def applyViewEvent (parseHost : String → Option String) (s : DashState) :
    ViewEvent → DashState
  | .reload newData =>
      filterData { s with
        data := newData
        siteSummary := calculateSiteSummary parseHost newData }
  | .setContentTypeFilter t => filterData { s with contentTypeFilter := t }
  | .setSearchQuery q => filterData { s with searchQuery := q }

/-- The record identity key of `handleDeleteSelected`:
the template literal `${item.title}-${item.source}-${item.timestamp}`. -/
def identityKey (item : ScrapedItem) : String :=
  item.title ++ "-" ++ item.source ++ "-" ++ item.timestamp

/-- Outcome of the `POST /delete` request awaited by `handleDeleteSelected`:
a response with `success: true`, a response with `success: false`, or a
thrown transport error carrying `error.message` when the thrown value is an
`Error`. -/
inductive DeleteResponse where
  | ok
  | fail
  | transportErr (message : Option String)
deriving DecidableEq, Repr

/-- `handleDeleteSelected` of `Dashboard.tsx` (lines 162–195).  Returns the
new state and whether a network request was issued.  Selected positions are
mapped to view records with `filteredData[index]`; positions are always in
range in the application (the selection is cleared whenever the view
changes), and out-of-range positions are modelled as dropped. -/
def handleDeleteSelected (parseHost : String → Option String)
    (resp : DeleteResponse) (s : DashState) : DashState × Bool :=
  if s.selectedItems = [] then (s, false)
  else
    let itemsToDelete := s.selectedItems.filterMap (fun i => s.filteredData.get? i)
    match resp with
    | .ok =>
        let deletedKeys := itemsToDelete.map identityKey
        let newData := s.data.filter (fun item =>
          !(deletedKeys.contains (identityKey item)))
        ({ s with
            data := newData
            siteSummary := calculateSiteSummary parseHost newData
            selectedItems := []
            isDeleting := false }, true)
    | .fail =>
        ({ s with error := "Failed to delete items", isDeleting := false }, true)
    | .transportErr message =>
        ({ s with
            error := "Error deleting items: " ++
              message.getD "An unknown error occurred"
            isDeleting := false }, true)

/-! ## CSV export (`exportToCSV`, `Dashboard.tsx` lines 103–126) -/

/-- Model of `s.replace(/"/g, '""')`: double every double quote. -/
def escQuote (s : String) : String :=
  ⟨s.data.foldr (fun c acc => if c = '"' then '"' :: '"' :: acc else c :: acc) []⟩

/-- The fixed CSV header line of `exportToCSV`. -/
def csvHeader : String :=
  joinSep ","
    ["Title", "Price/Release Date", "Availability/Rating", "Category",
     "Source", "Timestamp", "Content Type"]

/-- One CSV data row, exactly as the template literals at lines 108–114 of
`Dashboard.tsx`: the title has its double quotes doubled, the remaining
fields are wrapped in quotes verbatim, the content type falls back to
`'books'` when absent or empty (`item.contentType || 'books'`).  Rendering
the timestamp (`new Date(...).toLocaleString()`) is a locale facility,
passed in as `fmtDate`. -/
def csvRow (fmtDate : String → String) (item : ScrapedItem) : String :=
  joinSep ","
    ["\"" ++ escQuote item.title ++ "\"",
     "\"" ++ item.price ++ "\"",
     "\"" ++ item.availability ++ "\"",
     "\"" ++ item.category ++ "\"",
     "\"" ++ item.source ++ "\"",
     "\"" ++ fmtDate item.timestamp ++ "\"",
     "\"" ++ jsOrOpt item.contentType "books" ++ "\""]

/-- The CSV text produced by `exportToCSV` for the current derived view:
header line then one row per view record, joined by newlines. -/
def exportToCSV (fmtDate : String → String)
    (filteredData : List ScrapedItem) : String :=
  joinSep "\n" (csvHeader :: filteredData.map (csvRow fmtDate))

/-- Standard CSV quoting of one field, following the spec's words: wrap in
double quotes with internal double quotes doubled. -/
def csvQuoteSpec (s : String) : String := "\"" ++ escQuote s ++ "\""

/-- Quoting without escaping: wrap in double quotes verbatim. -/
def rawQuoteSpec (s : String) : String := "\"" ++ s ++ "\""

/-- The CSV text described by the claim (spec refinement candidate): every
field value of every row standard-CSV-quoted. -/
def exportToCSVClaimed (fmtDate : String → String)
    (view : List ScrapedItem) : String :=
  joinSep "\n" (csvHeader ::
    view.map (fun item => joinSep ","
      ([item.title, item.price, item.availability, item.category,
        item.source, fmtDate item.timestamp,
        jsOrOpt item.contentType "books"].map csvQuoteSpec)))

/-- The CSV text described by the amended claim: the title field is
standard-CSV-quoted, the remaining six field values are wrapped in double
quotes verbatim. -/
def exportToCSVAmended (fmtDate : String → String)
    (view : List ScrapedItem) : String :=
  joinSep "\n" (csvHeader ::
    view.map (fun item => joinSep ","
      (csvQuoteSpec item.title ::
        [item.price, item.availability, item.category, item.source,
         fmtDate item.timestamp,
         jsOrOpt item.contentType "books"].map rawQuoteSpec)))

/-! ## Job submission and progress stream (`src/components/ScrapeForm.tsx`) -/

/-- The progress payload decoded from one `EventSource` message
(`ProgressState` in the spec).  Counts are the integer fields of the JSON
payload; the two percentage fields are carried as rationals (the client only
displays them). -/
structure Progress where
  total_items : Nat
  processed_items : Nat
  ai_total : Nat
  ai_processed : Nat
  scraping_percentage : Rat
  ai_percentage : Rat
  status : String
  message : String
deriving DecidableEq, Repr

/-- The initial (`idle`) progress value of `ScrapeForm.tsx`. -/
def initialProgress : Progress :=
  { total_items := 0, processed_items := 0, ai_total := 0, ai_processed := 0
    scraping_percentage := 0, ai_percentage := 0, status := "idle", message := "" }

/-- The `'starting'` progress value set synchronously by `handleSubmit`. -/
def startingProgress : Progress :=
  { total_items := 0, processed_items := 0, ai_total := 0, ai_processed := 0
    scraping_percentage := 0, ai_percentage := 0, status := "starting"
    message := "Starting scraping process..." }

inductive MsgType where
  | success
  | error
deriving DecidableEq, Repr

/-- The component state of `ScrapeForm`.  Progress channels (`EventSource`
objects) are identified by numeric ids; `eventSource` is the channel
reference held in component state (`null` as `none`). -/
structure FormState where
  url : String
  category : String
  contentType : String
  loading : Bool
  message : String
  messageType : MsgType
  progress : Progress
  eventSource : Option Nat
deriving DecidableEq, Repr

/-- Outcome of the awaited `POST /scrape` request: resolved (its body is
never inspected — success feedback comes from the progress stream), or
rejected with an optional `error` field in the response payload. -/
inductive SubmitOutcome where
  | resolved
  | rejected (apiError : Option String)
deriving DecidableEq, Repr

/-- Observable channel effects of one `handleSubmit` invocation. -/
structure SubmitTrace where
  opened : Option Nat
  closed : List Nat
  requested : Bool
deriving DecidableEq, Repr

/-- `handleSubmit` of `ScrapeForm.tsx` (lines 78–155): the synchronous body
plus the handling of the submission request's own outcome (the stream
handlers are modelled separately by `onMessage`).  `fresh` is the id of the
newly constructed `EventSource`.  The `catch` block reads the `eventSource`
binding captured by the render closure — i.e. the value the state had when
the handler was created (`s.eventSource`) — not the newly opened channel
`fresh`; `setEventSource(es)` only affects later renders. -/
def handleSubmit (fresh : Nat) (outcome : SubmitOutcome)
    (s : FormState) : FormState × SubmitTrace :=
  if jsTrim s.url = "" then
    ({ s with message := "Please enter a URL", messageType := .error },
     { opened := none, closed := [], requested := false })
  else
    let s1 := { s with
      loading := true, message := "", progress := startingProgress,
      eventSource := some fresh }
    match outcome with
    | .resolved => (s1, { opened := some fresh, closed := [], requested := true })
    | .rejected apiError =>
        let errorMessage := apiError.getD "An error occurred while scraping"
        let s2 := { s1 with
          message := errorMessage, messageType := .error, loading := false }
        match s.eventSource with
        | some old =>
            ({ s2 with eventSource := none },
             { opened := some fresh, closed := [old], requested := true })
        | none =>
            (s2, { opened := some fresh, closed := [], requested := true })

/-- The `es.onmessage` handler of `ScrapeForm.tsx` (lines 104–128).  The
payload is `none` when `JSON.parse` threw (the event is logged and
discarded).  `capturedContentType` is the `contentType` binding captured by
the handler's closure.  Returns the new state and whether the handler closed
the channel. -/
def onMessage (capturedContentType : String) (s : FormState)
    (payload : Option Progress) : FormState × Bool :=
  match payload with
  | none => (s, false)
  | some d =>
      let s1 := { s with progress := d }
      if d.status = "completed" then
        let itemType :=
          if capturedContentType = "tvshows" then "TV shows" else capturedContentType
        ({ s1 with
            message := "Successfully scraped " ++ toString d.processed_items ++
              " " ++ itemType ++ "!"
            messageType := .success, url := "", category := "", loading := false
            eventSource := none }, true)
      else if d.status = "error" then
        ({ s1 with
            message := jsOrDefault d.message "An error occurred while scraping"
            messageType := .error, loading := false, eventSource := none }, true)
      else (s1, false)

/-- Deliver a sequence of channel events to the `onmessage` handler.  Once
the channel has been closed (`eventSource = none`) the `EventSource`
delivers no further events. -/
def processEvents (capturedContentType : String) (s : FormState) :
    List (Option Progress) → FormState
  | [] => s
  | e :: es =>
      if s.eventSource.isSome then
        processEvents capturedContentType (onMessage capturedContentType s e).1 es
      else s

/-! ## Spec-side definitions used for refinement statements -/

/-- The derived-view computation as the spec words it: first keep exactly
the records whose content type equals the filter's content type (all records
when the filter is `'all'`), then keep exactly the records whose title
contains the trimmed search text as a case-insensitive substring (all
records when the trimmed search text is empty). -/
def specFilter (contentTypeFilter searchText : String)
    (records : List ScrapedItem) : List ScrapedItem :=
  let stage1 :=
    if contentTypeFilter = "all" then records
    else records.filter (fun r => r.contentType == some contentTypeFilter)
  let needle := jsToLower (jsTrim searchText)
  if needle = "" then stage1
  else stage1.filter (fun r => jsIncludes (jsToLower r.title) needle)

/-! ## Concrete sample data for witnesses and counterexamples -/

def itemA : ScrapedItem :=
  { title := "A", price := "1", availability := "in", category := "c"
    source := "http://a/x", timestamp := "t1", contentType := some "books" }

def itemB : ScrapedItem :=
  { title := "B", price := "2", availability := "in", category := "c"
    source := "http://b/x", timestamp := "t2", contentType := some "books" }

def itemC : ScrapedItem :=
  { title := "C", price := "3", availability := "in", category := "c"
    source := "http://c/x", timestamp := "t3", contentType := some "books" }

/-- A record whose price field contains a double quote. -/
def itemQuote : ScrapedItem :=
  { title := "T", price := "1\"2", availability := "in", category := "c"
    source := "http://q/x", timestamp := "t4", contentType := some "books" }

/-- Dashboard state with canonical list `[A,B,C]`, an identity view, and
positions `{0, 2}` (records `A` and `C`) selected. -/
def dashAC : DashState :=
  { data := [itemA, itemB, itemC], filteredData := [itemA, itemB, itemC]
    error := "", siteSummary := [], selectedItems := [0, 2]
    isDeleting := false, contentTypeFilter := "all", searchQuery := "" }

/-- Dashboard state with an empty selection. -/
def dashEmptySel : DashState :=
  { data := [itemA, itemB, itemC], filteredData := [itemA, itemB, itemC]
    error := "", siteSummary := [("a", 1)], selectedItems := []
    isDeleting := false, contentTypeFilter := "all", searchQuery := "" }

/-- Form state before a first submission: a valid URL and no channel open. -/
def formBefore : FormState :=
  { url := "http://x", category := "", contentType := "books"
    loading := false, message := "", messageType := .success
    progress := initialProgress, eventSource := none }

/-- A trivial hostname parser used to instantiate witnesses. -/
def noHost : String → Option String := fun _ => none

/-! ## Auxiliary lemmas -/

/-- ASCII lowering never creates or destroys whitespace. -/
theorem isWS_toLower (c : Char) : isWS c.toLower = isWS c := by
  have hdef : c.toLower =
      if c.toNat ≥ 65 ∧ c.toNat ≤ 90 then Char.ofNat (c.toNat + 32) else c := rfl
  rw [hdef]
  by_cases h : c.toNat ≥ 65 ∧ c.toNat ≤ 90
  · rw [if_pos h]
    obtain ⟨h1, h2⟩ := h
    have hv : (Char.ofNat (c.toNat + 32)).toNat = c.toNat + 32 := by
      set n := c.toNat with hn
      interval_cases n <;> decide
    simp only [isWS, hv]
    rw [Bool.eq_iff_iff]
    simp only [Bool.or_eq_true, beq_iff_eq]
    omega
  · rw [if_neg h]

/-- Trimming commutes with ASCII lowering on character lists. -/
theorem trimList_map_toLower (l : List Char) :
    trimList (l.map Char.toLower) = (trimList l).map Char.toLower := by
  have hcomp : (isWS ∘ Char.toLower) = isWS := by
    funext c; simp [Function.comp, isWS_toLower]
  simp only [trimList, List.dropWhile_map, hcomp, ← List.map_reverse]

/-- `trim` commutes with `toLowerCase` on strings. -/
theorem jsTrim_jsToLower (s : String) :
    jsTrim (jsToLower s) = jsToLower (jsTrim s) := by
  simp [jsTrim, jsToLower, trimList_map_toLower]

/-- Lowering a string yields the empty string only for the empty string. -/
theorem jsToLower_eq_empty_iff (s : String) : jsToLower s = "" ↔ s = "" := by
  constructor
  · intro h
    have : s.data.map Char.toLower = [] := congrArg String.data h
    have : s.data = [] := List.map_eq_nil_iff.mp this
    exact String.ext this
  · intro h; subst h; rfl

/-- A string starting from a nonempty literal stays nonempty under append. -/
theorem append_ne_empty_left (s t : String) (h : s ≠ "") : s ++ t ≠ "" := by
  intro hc
  have hd : s.data ++ t.data = [] := by
    have := congrArg String.data hc
    simpa using this
  exact h (String.ext (List.append_eq_nil.mp hd).1)

/-- Key membership through `map identityKey` equals an existence test over
the original records. -/
theorem contains_map_identityKey (l : List ScrapedItem) (k : String) :
    (l.map identityKey).contains k = l.any (fun d => identityKey d == k) := by
  induction l with
  | nil => rfl
  | cons a t ih =>
      rw [List.map_cons, List.contains_cons, List.any_cons, ih]
      have hb : (k == identityKey a) = (identityKey a == k) := by
        rw [Bool.eq_iff_iff]; simp only [beq_iff_eq]; exact eq_comm
      rw [hb]

/-- `bumpKey` increases the total count of a summary by exactly one. -/
theorem sum_snd_bumpKey (acc : List (String × Nat)) (k : String) :
    ((bumpKey acc k).map Prod.snd).sum = ((acc.map Prod.snd).sum) + 1 := by
  induction acc with
  | nil => simp [bumpKey]
  | cons p rest ih =>
      obtain ⟨k', n⟩ := p
      by_cases h : k' = k
      · simp [bumpKey, h]
        omega
      · simp [bumpKey, h, ih]
        omega

/-- The site-summary fold adds the list length to any accumulator total. -/
theorem sum_snd_siteSummary_foldl (parseHost : String → Option String)
    (items : List ScrapedItem) :
    ∀ acc : List (String × Nat),
      (((items.foldl (fun a it => bumpKey a (siteKey parseHost it)) acc).map
          Prod.snd).sum) = (acc.map Prod.snd).sum + items.length := by
  induction items with
  | nil => intro acc; simp
  | cons it rest ih =>
      intro acc
      simp only [List.foldl_cons, List.length_cons]
      rw [ih, sum_snd_bumpKey]
      omega

/-- With a closed channel, the `EventSource` delivers nothing. -/
theorem processEvents_closed (ct : String) (s : FormState)
    (h : s.eventSource = none) (evs : List (Option Progress)) :
    processEvents ct s evs = s := by
  cases evs with
  | nil => rfl
  | cons e es => simp [processEvents, h]

/-! ## Claim theorems -/

/-- C1: for every prior selection state, whenever the derived view is
recomputed — because the canonical record list was replaced by a reload or
because the content-type filter or search text changed — the selection set
is reset to the empty set immediately afterwards. -/
theorem selection_cleared_on_view_recompute
    (parseHost : String → Option String) (s : DashState) (e : ViewEvent) :
    (applyViewEvent parseHost s e).selectedItems = [] := by
  cases e <;> rfl

/-- C8: an incoming progress-channel event whose payload is not decodable as
JSON is discarded individually: it does not change the progress state or any
other component state, it does not close the channel, and a malformed event
occurring anywhere in an event sequence leaves the overall processing result
unchanged, so subsequent valid events are still processed normally. -/
theorem malformed_event_discarded (ct : String) (s : FormState)
    (pre post : List (Option Progress)) :
    onMessage ct s none = (s, false) ∧
    processEvents ct s (pre ++ none :: post) = processEvents ct s (pre ++ post) := by
  refine ⟨rfl, ?_⟩
  induction pre generalizing s with
  | nil =>
      cases hc : s.eventSource with
      | none =>
          rw [List.nil_append, List.nil_append,
            processEvents_closed ct s hc, processEvents_closed ct s hc]
      | some c =>
          simp [processEvents, hc, onMessage]
  | cons e pre ih =>
      cases hc : s.eventSource with
      | none =>
          rw [List.cons_append, List.cons_append,
            processEvents_closed ct s hc, processEvents_closed ct s hc]
      | some c =>
          simp only [List.cons_append, processEvents, hc, Option.isSome_some, if_true]
          exact ih _

/-- C9: the site summary assigns each record to exactly one key — the
hostname parsed from its source URL, or the raw source string (or the fixed
fallback key) when parsing fails — so the sum of all summary counts equals
the length of the record list. -/
theorem siteSummary_counts_total (parseHost : String → Option String)
    (items : List ScrapedItem) :
    ((calculateSiteSummary parseHost items).map Prod.snd).sum = items.length := by
  have := sum_snd_siteSummary_foldl parseHost items []
  simpa [calculateSiteSummary] using this

/-- C10: when the current selection is empty, `handleDeleteSelected` is a
no-op: it issues no network request and leaves the whole dashboard state —
canonical list, derived view, site summary, selection and error message —
unchanged. -/
theorem deleteSelected_empty_noop (parseHost : String → Option String)
    (resp : DeleteResponse) (s : DashState) (h : s.selectedItems = []) :
    handleDeleteSelected parseHost resp s = (s, false) := by
  simp [handleDeleteSelected, h]

/-- Witness for C10 at a concrete dashboard state with an empty selection. -/
theorem deleteSelected_empty_noop_witness :
    dashEmptySel.selectedItems = [] ∧
    handleDeleteSelected noHost DeleteResponse.fail dashEmptySel =
      (dashEmptySel, false) :=
  ⟨rfl, deleteSelected_empty_noop noHost DeleteResponse.fail dashEmptySel rfl⟩

/-- C4: the derived view keeps first exactly the records whose content type
equals the filter's content type (all records when the filter is `'all'`),
then exactly the records whose title contains the trimmed search text as a
case-insensitive substring (all records when the trimmed search text is
empty), preserving canonical order. -/
theorem filterCore_eq_specFilter (ct q : String) (L : List ScrapedItem) :
    filterCore ct q L = specFilter ct q L := by
  unfold filterCore specFilter
  by_cases hct : ct = "all" <;> by_cases hq : jsTrim q = "" <;>
    simp [hct, hq, jsTrim_jsToLower, jsToLower_eq_empty_iff]

/-- C5: for all filter predicates and record lists, the derived view is an
order-preserving subsequence of the canonical list, and applying the same
predicate to the filtered output returns it unchanged (idempotence). -/
theorem filterCore_sublist_and_idem (ct q : String) (L : List ScrapedItem) :
    (filterCore ct q L).Sublist L ∧
    filterCore ct q (filterCore ct q L) = filterCore ct q L := by
  unfold filterCore
  dsimp only
  by_cases h1 : ct ≠ "all" <;> by_cases h2 : jsTrim q ≠ "" <;>
    simp only [if_pos h1, if_neg h1, if_pos h2, if_neg h2]
  · constructor
    · exact (List.filter_sublist _).trans (List.filter_sublist _)
    · set p1 : ScrapedItem → Bool :=
        fun item => item.contentType == some ct with hp1
      set p2 : ScrapedItem → Bool :=
        fun item => jsIncludes (jsToLower item.title) (jsTrim (jsToLower q)) with hp2
      set Y := (L.filter p1).filter p2 with hY
      have hY1 : ∀ a ∈ Y, p1 a := by
        intro a ha
        exact List.of_mem_filter (List.mem_filter.mp ha).1
      have hY2 : ∀ a ∈ Y, p2 a := by
        intro a ha
        exact List.of_mem_filter ha
      rw [List.filter_eq_self.mpr hY1, List.filter_eq_self.mpr hY2]
  · constructor
    · exact List.filter_sublist _
    · rw [List.filter_filter]
      simp only [Bool.and_self]
  · constructor
    · exact List.filter_sublist _
    · rw [List.filter_filter]
      simp only [Bool.and_self]
  · exact ⟨List.Sublist.refl _, trivial⟩

/-- C2: when the selection is nonempty with in-range positions, the
identity keys of the canonical list are pairwise distinct and the
batch-delete request succeeds, `handleDeleteSelected` removes from the
canonical list exactly the records whose identity key equals the identity
key of some selected view record (preserving the order of the survivors),
recomputes the site summary from the new list, and clears the selection. -/
theorem deleteSelected_ok_removes_selected (parseHost : String → Option String)
    (s : DashState)
    (hne : s.selectedItems ≠ [])
    (_hrange : ∀ i ∈ s.selectedItems, i < s.filteredData.length)
    (_hdist : (s.data.map identityKey).Nodup) :
    (handleDeleteSelected parseHost DeleteResponse.ok s).1.data =
      s.data.filter (fun item =>
        !((s.selectedItems.filterMap (fun i => s.filteredData.get? i)).any
          (fun d => identityKey d == identityKey item))) ∧
    (handleDeleteSelected parseHost DeleteResponse.ok s).1.siteSummary =
      calculateSiteSummary parseHost
        (handleDeleteSelected parseHost DeleteResponse.ok s).1.data ∧
    (handleDeleteSelected parseHost DeleteResponse.ok s).1.selectedItems = [] := by
  unfold handleDeleteSelected
  rw [if_neg hne]
  refine ⟨?_, rfl, rfl⟩
  simp only [contains_map_identityKey]

/-- Witness for C2: canonical list `[A,B,C]` with distinct identity keys and
positions `{0, 2}` (records `A` and `C`) selected; a successful batch-delete
yields canonical list `[B]` and an empty selection. -/
theorem deleteSelected_ok_removes_selected_witness :
    (handleDeleteSelected noHost DeleteResponse.ok dashAC).1.data =
      dashAC.data.filter (fun item =>
        !((dashAC.selectedItems.filterMap
            (fun i => dashAC.filteredData.get? i)).any
          (fun d => identityKey d == identityKey item))) ∧
    (handleDeleteSelected noHost DeleteResponse.ok dashAC).1.data = [itemB] ∧
    (handleDeleteSelected noHost DeleteResponse.ok dashAC).1.selectedItems = [] :=
  ⟨(deleteSelected_ok_removes_selected noHost dashAC (by decide) (by decide)
      (by decide)).1,
   by decide,
   (deleteSelected_ok_removes_selected noHost dashAC (by decide) (by decide)
      (by decide)).2.2⟩

/-- C3: when the batch-delete request fails — a `success: false` response or
a transport error — `handleDeleteSelected` leaves the canonical record list
(and the derived view and site summary) completely unchanged, with no
partial removal, and surfaces a nonempty error message to the user. -/
theorem deleteSelected_failure_leaves_data (parseHost : String → Option String)
    (resp : DeleteResponse) (s : DashState)
    (hne : s.selectedItems ≠ []) (hresp : resp ≠ DeleteResponse.ok) :
    (handleDeleteSelected parseHost resp s).1.data = s.data ∧
    (handleDeleteSelected parseHost resp s).1.filteredData = s.filteredData ∧
    (handleDeleteSelected parseHost resp s).1.siteSummary = s.siteSummary ∧
    (handleDeleteSelected parseHost resp s).1.error ≠ "" := by
  unfold handleDeleteSelected
  rw [if_neg hne]
  cases resp with
  | ok => exact absurd rfl hresp
  | fail =>
      refine ⟨rfl, rfl, rfl, ?_⟩
      show ("Failed to delete items" : String) ≠ ""
      decide
  | transportErr m =>
      refine ⟨rfl, rfl, rfl, ?_⟩
      show "Error deleting items: " ++ m.getD "An unknown error occurred" ≠ ""
      exact append_ne_empty_left _ _ (by decide)

/-- Witness for C3: a failing batch-delete on canonical list `[A,B,C]` with
`{A, C}` selected leaves the list unchanged and sets an error message. -/
theorem deleteSelected_failure_leaves_data_witness :
    (handleDeleteSelected noHost DeleteResponse.fail dashAC).1.data =
      dashAC.data ∧
    (handleDeleteSelected noHost DeleteResponse.fail dashAC).1.filteredData =
      dashAC.filteredData ∧
    (handleDeleteSelected noHost DeleteResponse.fail dashAC).1.siteSummary =
      dashAC.siteSummary ∧
    (handleDeleteSelected noHost DeleteResponse.fail dashAC).1.error ≠ "" :=
  deleteSelected_failure_leaves_data noHost DeleteResponse.fail dashAC
    (by decide) (by decide)

/-- C6 counterexample: the claim says every field value is emitted with
internal double quotes doubled, but the code doubles quotes only in the
title field.  For a view holding one record whose price is `1"2`, the CSV
the code produces differs from the CSV the claim describes. -/
theorem exportToCSV_not_all_fields_escaped :
    exportToCSV (fun t => t) [itemQuote] ≠
      exportToCSVClaimed (fun t => t) [itemQuote] := by decide

/-- C6 (amended): `exportToCSV` emits the fixed header row followed by one
row per view record in view order, in which the title is wrapped in double
quotes with internal double quotes doubled while the remaining six field
values are wrapped in double quotes verbatim, without escaping. -/
theorem exportToCSV_eq_amended (fmtDate : String → String)
    (view : List ScrapedItem) :
    exportToCSV fmtDate view = exportToCSVAmended fmtDate view := by
  unfold exportToCSV exportToCSVAmended csvRow csvQuoteSpec rawQuoteSpec
  rfl

/-- C7: the spec says that when a validated submission's request is rejected,
the progress channel opened for that submission is closed.  The code's
`catch` block closes the `eventSource` value captured by the render closure —
`null` on a first submission — so the freshly opened channel (id `0`) is
never closed, even though the failure message is surfaced correctly from the
error payload.  This evaluates the embedded handler at that failing input. -/
theorem submitFailure_leaves_fresh_channel_open :
    (handleSubmit 0 (SubmitOutcome.rejected (some "boom")) formBefore).2.opened
        = some 0 ∧
    (handleSubmit 0 (SubmitOutcome.rejected (some "boom")) formBefore).2.closed
        = [] ∧
    (handleSubmit 0 (SubmitOutcome.rejected (some "boom")) formBefore).1.eventSource
        = some 0 ∧
    (handleSubmit 0 (SubmitOutcome.rejected (some "boom")) formBefore).1.message
        = "boom" ∧
    (handleSubmit 0 (SubmitOutcome.rejected none) formBefore).1.message
        = "An error occurred while scraping" := by
  refine ⟨?_, ?_, ?_, ?_, ?_⟩ <;> decide

end WebScraper
